import Mathlib

/-!
Verification development for the internet-logger network-health sampler
(`src/main.py`).  The definitions below are a shallow embedding of the
program: pure computations become Lean functions, every library /
operating-system call (subprocess output, HTTP responses, regexp match
results, JSON parse results, wall-clock readings) becomes an explicit input
of the embedded function, and Python exceptions propagating out of a call
become `Except.error` values that the embedding threads exactly the way the
source's `try`/`except` structure does.  Wall-clock instants and durations
are rational numbers of seconds.
-/

set_option autoImplicit false

/-- `NORMAL_INTERVAL_SEC = 60` (src/main.py line 25). -/
def NORMAL_INTERVAL_SEC : ℤ := 60

/-- `BOOSTED_INTERVAL_SEC = 15` (src/main.py line 26). -/
def BOOSTED_INTERVAL_SEC : ℤ := 15

/-- `BOOSTED_DURATION = timedelta(minutes=5)` (src/main.py line 27), in seconds. -/
def BOOSTED_DURATION : ℚ := 300

/-- The boost extension performed by the mark handler:
`boostEndTime = nowDt + BOOSTED_DURATION` (src/main.py line 434).  The prior
expiry value is an argument only to record that the assignment ignores it. -/
def ExtendBoost (now : ℚ) (_priorExpiry : ℚ) : ℚ :=
  now + BOOSTED_DURATION

/-- The boost test used by the scheduler:
`datetime.datetime.now() < boostEndTime` (src/main.py lines 316, 382, 398). -/
def IsBoosted (t : ℚ) (boostEndTime : ℚ) : Bool :=
  decide (t < boostEndTime)

/-- The expiry after a sequence of mark keypresses at the given instants,
starting from an arbitrary prior expiry (src/main.py lines 431-434). -/
def boostAfter (init : ℚ) (calls : List ℚ) : ℚ :=
  calls.foldl (fun prior now => ExtendBoost now prior) init

/-- `int()` applied to a Python float / `timedelta.total_seconds()` value:
truncation toward zero (src/main.py lines 387-392). -/
def pyTrunc (q : ℚ) : ℤ :=
  if 0 ≤ q then ⌊q⌋ else ⌈q⌉

/-- The interval selection at the start of a countdown
(src/main.py lines 380-384). -/
def nextInterval (now : ℚ) (boostEndTime : ℚ) : ℤ :=
  if now < boostEndTime then BOOSTED_INTERVAL_SEC else NORMAL_INTERVAL_SEC

/-- One rendered countdown dashboard update (src/main.py lines 395-416),
projected to the scheduling-relevant fields. -/
structure CountSnap where
  sinceSec : ℤ
  untilSec : ℤ
  boosted : Bool
deriving DecidableEq

/-- The countdown loop of `RunTrackerLoop` (src/main.py lines 385-417).
Each list element is the pair (value of `datetime.datetime.now()` at the
loop head, value of the shared `boostEndTime` at that instant); the chosen
`interval` is fixed for the whole loop, exactly as in the source.  The loop
breaks, publishing nothing, as soon as the truncated remaining time is
non-positive. -/
def countdownRun (lastSampleTime : ℚ) (interval : ℤ) :
    List (ℚ × ℚ) → List CountSnap
  | [] => []
  | (now, bEnd) :: rest =>
    let untilSec := pyTrunc (lastSampleTime + (interval : ℚ) - now)
    if untilSec ≤ 0 then []
    else
      ⟨pyTrunc (now - lastSampleTime), untilSec, decide (now < bEnd)⟩ ::
        countdownRun lastSampleTime interval rest

/-- The scheduler-owned bookkeeping mutated at the end of a cycle
(src/main.py lines 30-36 and 358-363). -/
structure TrackerState where
  sampleCount : ℕ
  lastSampleTime : Option ℚ
  durationList : List ℤ
deriving DecidableEq

/-- End-of-cycle bookkeeping (src/main.py lines 358-363): the duration is
appended, the sample count incremented, and `lastSampleTime` is set to the
cycle's *start* instant `startDt`, not its end. -/
def recordCycleEnd (st : TrackerState) (startDt : ℚ) (durMs : ℤ) : TrackerState :=
  ⟨st.sampleCount + 1, some startDt, st.durationList ++ [durMs]⟩

/-- The bounded mark buffer plus total counter
(src/main.py lines 35-36: `marksDeque` with `maxlen=5`, `totalMarksCount`). -/
structure MarkState where
  buffer : List (String × String)
  total : ℕ
deriving DecidableEq

/-- `collections.deque(maxlen=n).append`: the new element goes on the right
and the leftmost elements are evicted when the length would exceed `n`. -/
def dequeAppend (maxlen : ℕ) (buf : List (String × String))
    (x : String × String) : List (String × String) :=
  let b := buf ++ [x]
  if maxlen < b.length then b.drop (b.length - maxlen) else b

/-- One mark event (src/main.py lines 435-436): append to the bounded deque
and increment the total counter. -/
def recordMark (s : MarkState) (m : String × String) : MarkState :=
  ⟨dequeAppend 5 s.buffer m, s.total + 1⟩

/-- The mark state after a sequence of mark events, from the initial empty
deque and zero counter (src/main.py lines 35-36). -/
def runMarks (ms : List (String × String)) : MarkState :=
  ms.foldl recordMark ⟨[], 0⟩

/-- A Python exception escaping a library call inside a probe. -/
inductive PErr where
  | calledProcessError
  | fileNotFound
  | timeout
  | connectionError
  | typeError
  | attributeError
deriving DecidableEq

/-- Does the second character list start the first? -/
def isPrefixL : List Char → List Char → Bool
  | [], _ => true
  | _ :: _, [] => false
  | p :: ps, c :: cs => p = c && isPrefixL ps cs

/-- Does the character list contain the pattern as a contiguous run? -/
def containsSub : List Char → List Char → Bool
  | [], pat => pat.isEmpty
  | c :: rest, pat => isPrefixL pat (c :: rest) || containsSub rest pat

/-- Substring test, embedding Python's `"utun" in output` (src/main.py
line 41). -/
def containsStr (s pat : String) : Bool :=
  containsSub s.data pat.data

/-- `CheckVpnStatus` (src/main.py lines 39-41).  The argument is the result
of `subprocess.check_output(["ifconfig"])`; the source has no exception
handler, so an error result propagates. -/
def CheckVpnStatus (ifconfigResult : Except PErr String) : Except PErr String :=
  match ifconfigResult with
  | .error e => .error e
  | .ok output => .ok (if containsStr output "utun" then "ON" else "OFF")

/-- The two `re.search` results on the ping output (src/main.py lines 48-49),
modelled as pre-extracted optional captures: the integer of
`(\d+)% packet loss` and the number captured by ` = [\d\.]+/([\d\.]+)/`. -/
structure PingStdout where
  lossMatch : Option ℕ
  avgMatch : Option ℚ
deriving DecidableEq

/-- `PingTest` (src/main.py lines 44-52).  The argument is the result of the
`subprocess.run` call; an error propagates (no handler in the source), and a
missing regex match defaults the corresponding field to `0.0`. -/
def PingTest (procResult : Except PErr PingStdout) : Except PErr (ℚ × ℚ) :=
  match procResult with
  | .error e => .error e
  | .ok out =>
      .ok ((out.avgMatch.getD 0), ((out.lossMatch.map fun n => (n : ℚ)).getD 0))

/-- A JSON value, as produced by `json.loads` and consumed by `json.dump`. -/
inductive Jv where
  | null
  | num (q : ℚ)
  | str (s : String)
  | arr (xs : List Jv)
  | obj (fields : List (String × Jv))

/-- Association-list lookup on a JSON object, as `dict.get`. -/
def jlookup : List (String × Jv) → String → Option Jv
  | [], _ => none
  | (k, v) :: rest, key => if k = key then some v else jlookup rest key

/-- `data.get(key, default)` followed by use as a number: a missing key
yields the default, a numeric value yields the number, a non-numeric value
raises `TypeError` in the subsequent division, and a non-dict raises
`AttributeError` (src/main.py lines 61-62). -/
def jsonGetNum (data : Jv) (key : String) (dflt : ℚ) : Except PErr ℚ :=
  match data with
  | .obj fields =>
      match jlookup fields key with
      | none => .ok dflt
      | some (.num q) => .ok q
      | some _ => .error .typeError
  | _ => .error .attributeError

/-- `SpeedTest` (src/main.py lines 55-63).  The outer argument is the result
of the `subprocess.run` call (an error propagates: no handler); the inner
value is the result of `json.loads(proc.stdout or "{}")`, where
`.error ()` stands for `json.JSONDecodeError`, which is caught and mapped to
`(0.0, 0.0)`. -/
def SpeedTest (procResult : Except PErr (Except Unit Jv)) :
    Except PErr (ℚ × ℚ) :=
  match procResult with
  | .error e => .error e
  | .ok (.error _) => .ok (0, 0)
  | .ok (.ok data) =>
      match jsonGetNum data "download" 0, jsonGetNum data "upload" 0 with
      | .ok d, .ok u => .ok (d / 1000000, u / 1000000)
      | .error e, _ => .error e
      | _, .error e => .error e

/-- `GetWifiSignal` (src/main.py lines 66-80).  The whole body is wrapped in
`try ... except Exception: return None`; the argument is the combined result
of the `subprocess.run` call and the regexp capture (`none` when the
pattern did not match). -/
def GetWifiSignal (tryResult : Except PErr (Option ℤ)) : Option ℤ :=
  match tryResult with
  | .error _ => none
  | .ok m => m

/-- An HTTP response, as far as `TestUrls` inspects it. -/
structure HttpResponse where
  status_code : ℕ
deriving DecidableEq

/-- Remove every occurrence of the eight characters `https://`, scanning
left to right and continuing after each removed occurrence — the semantics
of `url.replace("https://", "")` with an empty replacement. -/
def dropSchemeChars : List Char → List Char
  | 'h' :: 't' :: 't' :: 'p' :: 's' :: ':' :: '/' :: '/' :: rest =>
      dropSchemeChars rest
  | c :: rest => c :: dropSchemeChars rest
  | [] => []

/-- `url.replace("https://", "")` (src/main.py lines 96, 98). -/
def stripScheme (url : String) : String :=
  ⟨dropSchemeChars url.data⟩

/-- `baseSites` (src/main.py lines 84-88). -/
def baseSites : List String :=
  ["https://www.google.com", "https://chat.openai.com", "https://www.youtube.com"]

/-- `extraSites` (src/main.py line 89). -/
def extraSites : List String :=
  ["https://www.twitter.com", "https://www.reddit.com"]

/-- `TestUrls` (src/main.py lines 83-99).  `get` gives each URL's
`requests.get` outcome; a raised request error is caught and counts as
failed, a response is failed iff `status_code >= 400`, and failed entries
are recorded with the scheme stripped, in probing order. -/
def TestUrls (extra : Bool) (get : String → Except PErr HttpResponse) :
    List String :=
  (baseSites ++ if extra then extraSites else []).filterMap fun url =>
    match get url with
    | .error _ => some (stripScheme url)
    | .ok resp =>
        if 400 ≤ resp.status_code then some (stripScheme url) else none

/-- Whether a URL counts as failed for `TestUrls`: its request errored or
returned a status of 400 or above (src/main.py lines 93-98). -/
def isFailed (get : String → Except PErr HttpResponse) (url : String) : Bool :=
  match get url with
  | .error _ => true
  | .ok resp => decide (400 ≤ resp.status_code)

/-- The reachability call made by the scheduler: `failed = TestUrls()`
(src/main.py line 353) — the `extra` flag is left at its default `False`. -/
def schedulerFailedSites (get : String → Except PErr HttpResponse) :
    List String :=
  TestUrls false get

/-- The collected fields of one cycle's probing (src/main.py lines 348-353). -/
structure ProbeResults where
  vpn : String
  pingMs : ℚ
  packetLoss : ℚ
  download : ℚ
  upload : ℚ
  wifi : Option ℤ
  failed : List String
deriving DecidableEq

/-- The probe sequence of one cycle (src/main.py lines 348-353), run in
source order.  A Python exception escaping any of the first three probes has
no handler in `RunTrackerLoop`, so it propagates and aborts the cycle; this
is the `Except.error` case. -/
def runProbes (ifcfg : Except PErr String) (ping : Except PErr PingStdout)
    (speed : Except PErr (Except Unit Jv)) (wifi : Except PErr (Option ℤ))
    (get : String → Except PErr HttpResponse) : Except PErr ProbeResults := do
  let vpn ← CheckVpnStatus ifcfg
  let pr ← PingTest ping
  let sp ← SpeedTest speed
  let w := GetWifiSignal wifi
  pure ⟨vpn, pr.1, pr.2, sp.1, sp.2, w, TestUrls false get⟩

/-- A Measurement, with the exact field set of the log entry written by
`RunTrackerLoop` (src/main.py lines 366-377).  Numeric fields are rationals:
Python's `json` module writes floats with `repr`, which reads back to the
identical value, so the serialization is lossless at the value level. -/
structure Measurement where
  timestamp : String
  vpn_status : String
  ping_ms : ℚ
  packet_loss : ℚ
  download_mbps : ℚ
  upload_mbps : ℚ
  wifi_signal_dbm : Option ℤ
  failed_sites : List String
deriving DecidableEq

/-- The JSON record written for one Measurement (src/main.py lines 366-377):
the dict literal passed to `WriteToLog`, key for key. -/
def encodeMeasurement (m : Measurement) : Jv :=
  .obj [("timestamp", .str m.timestamp),
        ("vpn_status", .str m.vpn_status),
        ("ping_ms", .num m.ping_ms),
        ("packet_loss", .num m.packet_loss),
        ("download_mbps", .num m.download_mbps),
        ("upload_mbps", .num m.upload_mbps),
        ("wifi_signal_dbm", match m.wifi_signal_dbm with
                            | none => .null
                            | some i => .num (i : ℚ)),
        ("failed_sites", .arr (m.failed_sites.map Jv.str))]

/-- `WriteToLog` (src/main.py lines 102-105): durably append one JSON record
to the end of the append-only log. -/
def WriteToLog (entry : Jv) (log : List Jv) : List Jv :=
  log ++ [entry]

/-- Read an optional-integer field back from its JSON form (`null` or an
integral number). -/
def decodeWifi : Jv → Option (Option ℤ)
  | .null => some none
  | .num q => if q.den = 1 then some (some q.num) else none
  | _ => none

/-- Read a list of strings back from its JSON array form. -/
def decodeSites : List Jv → Option (List String)
  | [] => some []
  | .str s :: rest => (decodeSites rest).map fun l => s :: l
  | _ => none

/-- Decode one logged Measurement record: accepts exactly the shape written
by `encodeMeasurement` and recovers the field values. -/
def decodeMeasurement : Jv → Option Measurement
  | .obj [("timestamp", .str ts),
          ("vpn_status", .str vpn),
          ("ping_ms", .num ping),
          ("packet_loss", .num loss),
          ("download_mbps", .num dl),
          ("upload_mbps", .num ul),
          ("wifi_signal_dbm", wifi),
          ("failed_sites", .arr sites)] =>
      match decodeWifi wifi, decodeSites sites with
      | some w, some fs => some ⟨ts, vpn, ping, loss, dl, ul, w, fs⟩
      | _, _ => none
  | _ => none

/-- The marker record written by the mark handler (src/main.py line 437). -/
def markerEntry (tsIso : String) : Jv :=
  .obj [("timestamp", .str tsIso), ("marker", .str "MANUAL_MARK")]

/-- Process-level state relevant to the key handler: which of the two
threads of `main` (src/main.py lines 444-446) is still running, whether the
terminal settings were restored, and the shared mutable state. -/
structure ProcState where
  listenerAlive : Bool
  trackerAlive : Bool
  termiosRestored : Bool
  boostEnd : ℚ
  marks : MarkState
  log : List Jv

/-- One key dispatch of `ManualMarkerLoop` (src/main.py lines 427-439),
combined with Python's threading semantics: `sys.exit(0)` (line 430) raises
`SystemExit`, which unwinds only the calling thread — here the daemon marker
thread started by `main` (line 445) — running its `finally` block (lines
440-441, restoring the terminal) and ending that thread; the main thread,
which runs `RunTrackerLoop`, is untouched.  `tsStr` and `tsIso` are the
`strftime`/`isoformat` renderings of `now`. -/
def handleKey (s : ProcState) (now : ℚ) (tsStr tsIso : String) (ch : Char) :
    ProcState :=
  if ch = 'q' then
    { s with listenerAlive := false, termiosRestored := true }
  else if ch = 'm' then
    { s with boostEnd := ExtendBoost now s.boostEnd,
             marks := recordMark s.marks (tsStr, "Manual mark"),
             log := WriteToLog (markerEntry tsIso) s.log }
  else s

/-- A CPython process stays alive exactly as long as its main thread (daemon
threads neither keep it alive nor, by ending, end it).  The main thread runs
`RunTrackerLoop` (src/main.py line 446). -/
def processAlive (s : ProcState) : Bool :=
  s.trackerAlive

/-- The process state at startup (src/main.py lines 29-36, 444-446): both
threads running, raw mode entered, no marks, empty log, boost expiry at the
startup instant. -/
def procInit (t0 : ℚ) : ProcState :=
  ⟨true, true, false, t0, ⟨[], 0⟩, []⟩

/-- Observable events of one sampling cycle of `RunTrackerLoop`
(src/main.py lines 302-417). -/
inductive Ev where
  | cycleStart
  | probesDone
  | tick (samples : ℕ) (boosted : Bool)
  | assemble (samples : ℕ)
  | persist
  | countSnap (samples : ℕ) (boosted : Bool)
deriving DecidableEq

/-- Joint state of the scheduler thread and its indicator sub-thread during
one cycle of `RunTrackerLoop` (src/main.py lines 302-417).  `aPC` is the
scheduler's position: 0 = about to record the start instants (lines
304-305), 1 = about to start the indicator thread (lines 345-346), 2 =
running the probes (lines 348-353), 3 = about to `stopEvent.set()` (line
356), 4 = about to `indicatorThread.join()` (line 357), 5 = assembling the
measurement (lines 358-363), 6 = writing the log entry (lines 365-377),
7 = in the countdown (lines 379-417).  `bPC` is the indicator loop's
position: 0 = at the `stopEvent.is_set()` check (line 311), 1 = about to
render (lines 312-343).  The concurrently running Input Listener shares
`boostEnd` (it writes it on a mark key, line 434; the indicator re-reads it
at line 316); `marked` records whether any mark key has been handled so
far. -/
structure CycleState where
  aPC : ℕ
  bPC : ℕ
  bStarted : Bool
  bDone : Bool
  stop : Bool
  samples : ℕ
  now : ℚ
  boostEnd : ℚ
  marked : Bool
  trace : List Ev

/-- The state at the top of the first cycle: nothing rendered yet, no
samples, no marks entered, the indicator thread not yet started, clock at
`t0`, and `boostEndTime` still at its import-time value `b0` (src/main.py
line 31). -/
def initCycle (t0 b0 : ℚ) : CycleState :=
  ⟨0, 0, false, false, false, 0, t0, b0, false, []⟩

/-- Interleaved small-step semantics of the threads.  Scheduler steps
follow the source order of `RunTrackerLoop`; the indicator thread may run
between any two scheduler steps once started and before it has observed the
stop signal; `markKey` is the Input Listener thread handling a mark key
(src/main.py line 434): it may interleave at any point and overwrites the
shared `boostEnd`; `advance` lets the wall clock move forward at any point.
The `join` step (line 357) is enabled only once the indicator thread has
finished. -/
inductive CycleStep : CycleState → CycleState → Prop where
  | advance (s : CycleState) (d : ℚ) (hd : 0 ≤ d) :
      CycleStep s { s with now := s.now + d }
  | aStart (s : CycleState) (h : s.aPC = 0) :
      CycleStep s { s with aPC := 1, trace := s.trace ++ [Ev.cycleStart] }
  | aSpawn (s : CycleState) (h : s.aPC = 1) :
      CycleStep s { s with aPC := 2, bStarted := true }
  | aProbes (s : CycleState) (h : s.aPC = 2) :
      CycleStep s { s with aPC := 3, trace := s.trace ++ [Ev.probesDone] }
  | aSetStop (s : CycleState) (h : s.aPC = 3) :
      CycleStep s { s with aPC := 4, stop := true }
  | aJoin (s : CycleState) (h : s.aPC = 4) (hb : s.bDone = true) :
      CycleStep s { s with aPC := 5 }
  | aAssemble (s : CycleState) (h : s.aPC = 5) :
      CycleStep s { s with aPC := 6, samples := s.samples + 1,
                           trace := s.trace ++ [Ev.assemble (s.samples + 1)] }
  | aPersist (s : CycleState) (h : s.aPC = 6) :
      CycleStep s { s with aPC := 7, trace := s.trace ++ [Ev.persist] }
  | aCountSnap (s : CycleState) (h : s.aPC = 7) :
      CycleStep s { s with trace := s.trace ++
        [Ev.countSnap s.samples (decide (s.now < s.boostEnd))] }
  | bCheckStop (s : CycleState) (hs : s.bStarted = true) (hd : s.bDone = false)
      (h : s.bPC = 0) (hst : s.stop = true) :
      CycleStep s { s with bDone := true }
  | bCheckRun (s : CycleState) (hs : s.bStarted = true) (hd : s.bDone = false)
      (h : s.bPC = 0) (hst : s.stop = false) :
      CycleStep s { s with bPC := 1 }
  | bTick (s : CycleState) (hs : s.bStarted = true) (hd : s.bDone = false)
      (h : s.bPC = 1) :
      CycleStep s { s with bPC := 0, trace := s.trace ++
        [Ev.tick s.samples (decide (s.now < s.boostEnd))] }
  | markKey (s : CycleState) :
      CycleStep s { s with boostEnd := s.now + BOOSTED_DURATION,
                           marked := true }

/-- Reachability from a given start state. -/
inductive CycleReach (s0 : CycleState) : CycleState → Prop where
  | refl : CycleReach s0 s0
  | step {s t : CycleState} :
      CycleReach s0 s → CycleStep s t → CycleReach s0 t

/-- Is this event an indicator tick? -/
def isTick : Ev → Bool
  | Ev.tick _ _ => true
  | _ => false

/-- Is this event the assembly of the Measurement? -/
def isAssemble : Ev → Bool
  | Ev.assemble _ => true
  | _ => false

/-- Is this event a published dashboard rendering (indicator tick or
countdown snapshot)? -/
def isSnap : Ev → Bool
  | Ev.tick _ _ => true
  | Ev.countSnap _ _ => true
  | _ => false

/-- Does the trace contain an indicator tick somewhere after a Measurement
assembly? -/
def tickAfterAssemble : List Ev → Bool
  | [] => false
  | e :: rest => (isAssemble e && rest.any isTick) || tickAfterAssemble rest

/-- After this point of the trace, does an indicator tick occur before the
next countdown snapshot? -/
def tickBeforeCountSnap : List Ev → Bool
  | [] => false
  | Ev.tick _ _ :: _ => true
  | Ev.countSnap _ _ :: _ => false
  | _ :: rest => tickBeforeCountSnap rest

/-- Does an indicator tick occur after probing completed and before the
first subsequent countdown snapshot? -/
def tickAfterProbesBeforeSnap : List Ev → Bool
  | [] => false
  | Ev.probesDone :: rest => tickBeforeCountSnap rest
  | _ :: rest => tickAfterProbesBeforeSnap rest

/-- Was any dashboard rendering published strictly before the cycle began? -/
def snapBeforeCycleStart : List Ev → Bool
  | [] => false
  | Ev.cycleStart :: _ => false
  | e :: rest => isSnap e || snapBeforeCycleStart rest

/-- The inductive invariant of the cycle model tying the threads together.
`boost_unmarked` says the shared expiry still has its import-time value as
long as no mark key has been handled; `tick_facts` records that every
published tick shows `samples = 0` and — when additionally no mark has
occurred and the initial expiry does not lie in the future of the start
instant — `boosted = false`. -/
structure CycleInv (t0 b0 : ℚ) (s : CycleState) : Prop where
  now_ge : t0 ≤ s.now
  boost_unmarked : s.marked = false → s.boostEnd = b0
  join_done : 5 ≤ s.aPC → s.bDone = true
  assemble_done : s.trace.any isAssemble = true → s.bDone = true
  no_late_tick : tickAfterAssemble s.trace = false
  head_start : 1 ≤ s.aPC → s.trace.head? = some Ev.cycleStart
  pc0 : s.aPC = 0 → s.trace = [] ∧ s.bStarted = false
  spawn_pc : s.bStarted = true → 2 ≤ s.aPC
  samples_pc : s.samples = if 6 ≤ s.aPC then 1 else 0
  tick_facts : ∀ n b, Ev.tick n b ∈ s.trace →
    n = 0 ∧ (b0 ≤ t0 → s.marked = false → b = false)

/-- A concrete complete run of the first cycle, with no mark entered, in
which the indicator thread renders once while the probes are still being
stopped: it passed its stop check just before the scheduler finished
probing. -/
def fullRunState : CycleState :=
  ⟨7, 0, true, true, true, 1, 0, 0, false,
   [Ev.cycleStart, Ev.probesDone, Ev.tick 0 false, Ev.assemble 1,
    Ev.persist, Ev.countSnap 1 false]⟩

theorem boostAfter_concat (init : ℚ) (earlier : List ℚ) (lastCall : ℚ) :
    boostAfter init (earlier ++ [lastCall]) = lastCall + BOOSTED_DURATION := by
  simp [boostAfter, List.foldl_append, ExtendBoost]

/-- C1: every `ExtendBoost` performs a flat reset — after any sequence of
mark keypresses the expiry is exactly the last call's timestamp plus the
fixed 5-minute duration, whatever the prior expiry was, and `IsBoosted t`
holds iff `t` is strictly before that instant (src/main.py lines 27, 316,
431-434). -/
theorem C1_boost_flat_reset (init : ℚ) (earlier : List ℚ) (lastCall : ℚ) :
    boostAfter init (earlier ++ [lastCall]) = lastCall + BOOSTED_DURATION ∧
    ∀ t : ℚ, IsBoosted t (boostAfter init (earlier ++ [lastCall])) = true ↔
      t < lastCall + BOOSTED_DURATION := by
  refine ⟨boostAfter_concat init earlier lastCall, fun t => ?_⟩
  rw [boostAfter_concat init earlier lastCall]
  simp [IsBoosted]

theorem countdownRun_sched_eq (ls : ℚ) (iv : ℤ) :
    ∀ obs obs' : List (ℚ × ℚ), obs.map Prod.fst = obs'.map Prod.fst →
      (countdownRun ls iv obs).map (fun c => (c.sinceSec, c.untilSec)) =
      (countdownRun ls iv obs').map (fun c => (c.sinceSec, c.untilSec)) := by
  intro obs
  induction obs with
  | nil =>
      intro obs' h
      have : obs' = [] := by
        cases obs' with
        | nil => rfl
        | cons a r => simp at h
      rw [this]
  | cons a r ih =>
      intro obs' h
      cases obs' with
      | nil => simp at h
      | cons a' r' =>
          obtain ⟨now, bEnd⟩ := a
          obtain ⟨now', bEnd'⟩ := a'
          simp only [List.map_cons, List.cons.injEq] at h
          obtain ⟨hn, hr⟩ := h
          cases hn
          simp only [countdownRun]
          by_cases hc : pyTrunc (ls + (iv : ℚ) - now) ≤ 0
          · rw [if_pos hc, if_pos hc]
          · rw [if_neg hc, if_neg hc]
            simp only [List.map_cons]
            exact congrArg _ (ih r' hr)

/-- C2: the interval for a countdown is computed from the boost predicate
evaluated once, at the countdown's start — before the expiry it gives the
15-second boosted interval, otherwise the 60-second normal interval — and
however the boost state changes during the countdown, the published
schedule (elapsed/remaining seconds, and in particular when the countdown
ends) is unchanged (src/main.py lines 379-417). -/
theorem C2_interval_chosen_once :
    (∀ now bEnd : ℚ, now < bEnd →
      nextInterval now bEnd = BOOSTED_INTERVAL_SEC) ∧
    (∀ now bEnd : ℚ, ¬ now < bEnd →
      nextInterval now bEnd = NORMAL_INTERVAL_SEC) ∧
    (∀ (ls : ℚ) (iv : ℤ) (obs obs' : List (ℚ × ℚ)),
      obs.map Prod.fst = obs'.map Prod.fst →
      (countdownRun ls iv obs).map (fun c => (c.sinceSec, c.untilSec)) =
      (countdownRun ls iv obs').map (fun c => (c.sinceSec, c.untilSec))) := by
  refine ⟨fun now bEnd h => ?_, fun now bEnd h => ?_,
    fun ls iv => countdownRun_sched_eq ls iv⟩
  · simp [nextInterval, h]
  · simp [nextInterval, h]

/-- C2 witness: the theorem applied at concrete instants and observation
lists. -/
theorem C2_witness :
    nextInterval 0 1 = BOOSTED_INTERVAL_SEC ∧
    nextInterval 1 0 = NORMAL_INTERVAL_SEC ∧
    (countdownRun 0 60 [(10, 100)]).map (fun c => (c.sinceSec, c.untilSec)) =
      (countdownRun 0 60 [(10, 0)]).map (fun c => (c.sinceSec, c.untilSec)) :=
  ⟨C2_interval_chosen_once.1 0 1 (by norm_num),
   C2_interval_chosen_once.2.1 1 0 (by norm_num),
   C2_interval_chosen_once.2.2 0 60 [(10, 100)] [(10, 0)] rfl⟩

theorem runMarksFrom_total (ms : List (String × String)) :
    ∀ s : MarkState, (ms.foldl recordMark s).total = s.total + ms.length := by
  induction ms with
  | nil => intro s; simp
  | cons m r ih =>
      intro s
      rw [List.foldl_cons, ih (recordMark s m)]
      simp only [recordMark, List.length_cons]
      omega

theorem dequeAppend_drop (l : List (String × String)) (x : String × String) :
    dequeAppend 5 (l.drop (l.length - 5)) x =
      (l ++ [x]).drop ((l ++ [x]).length - 5) := by
  unfold dequeAppend
  by_cases hk : l.length ≤ 4
  · have h5 : l.length - 5 = 0 := by omega
    have h5' : (l ++ [x]).length - 5 = 0 := by
      simp only [List.length_append, List.length_singleton]; omega
    rw [h5, h5', List.drop_zero, List.drop_zero, if_neg]
    simp only [List.length_append, List.length_singleton]
    omega
  · have hlen : (l.drop (l.length - 5)).length = 5 := by
      rw [List.length_drop]; omega
    rw [if_pos]
    · have h1 : (l.drop (l.length - 5) ++ [x]).length - 5 = 1 := by
        simp only [List.length_append, List.length_singleton, hlen]
      rw [h1]
      rw [List.drop_append_eq_append_drop]
      have h2 : (1 : ℕ) - (l.drop (l.length - 5)).length = 0 := by
        rw [hlen]
      rw [h2, List.drop_zero, List.drop_drop]
      rw [List.drop_append_eq_append_drop]
      have h3 : (l ++ [x]).length - 5 - l.length = 0 := by
        simp only [List.length_append, List.length_singleton]; omega
      have h4 : l.length - 5 + 1 = (l ++ [x]).length - 5 := by
        simp only [List.length_append, List.length_singleton]; omega
      rw [h3, List.drop_zero, h4]
    · simp only [List.length_append, List.length_singleton, hlen]
      omega

theorem runMarksFrom_buffer (ms : List (String × String)) :
    ∀ (s : MarkState) (p : List (String × String)),
      s.buffer = p.drop (p.length - 5) →
      (ms.foldl recordMark s).buffer =
        (p ++ ms).drop ((p ++ ms).length - 5) := by
  induction ms with
  | nil => intro s p h; simpa using h
  | cons m r ih =>
      intro s p h
      have hstep : (recordMark s m).buffer =
          (p ++ [m]).drop ((p ++ [m]).length - 5) := by
        simp only [recordMark, h]
        exact dequeAppend_drop p m
      have := ih (recordMark s m) (p ++ [m]) hstep
      simpa [List.append_assoc] using this

/-- C3: after any sequence of `k` mark events the total counter equals `k`
and increases by one at each event, the bounded buffer holds exactly the
most recent `min k 5` marks in order (oldest evicted first), and the buffer
never outgrows the total (src/main.py lines 35-36, 435-436). -/
theorem C3_mark_history (ms : List (String × String)) :
    (runMarks ms).total = ms.length ∧
    (∀ m, (runMarks (ms ++ [m])).total = (runMarks ms).total + 1) ∧
    (runMarks ms).buffer = ms.drop (ms.length - 5) ∧
    (runMarks ms).buffer.length = min ms.length 5 ∧
    (runMarks ms).buffer.length ≤ (runMarks ms).total := by
  have ht : (runMarks ms).total = ms.length := by
    simpa [runMarks] using runMarksFrom_total ms ⟨[], 0⟩
  have hb : (runMarks ms).buffer = ms.drop (ms.length - 5) := by
    have := runMarksFrom_buffer ms ⟨[], 0⟩ [] (by simp)
    simpa [runMarks] using this
  refine ⟨ht, fun m => ?_, hb, ?_, ?_⟩
  · have h1 : (runMarks (ms ++ [m])).total = (ms ++ [m]).length := by
      simpa [runMarks] using runMarksFrom_total (ms ++ [m]) ⟨[], 0⟩
    rw [h1, ht]
    simp
  · rw [hb, List.length_drop]
    omega
  · rw [ht, hb, List.length_drop]
    omega

theorem pyTrunc_nonpos_iff (q : ℚ) : pyTrunc q ≤ 0 ↔ q < 1 := by
  unfold pyTrunc
  by_cases h : 0 ≤ q
  · rw [if_pos h]
    constructor
    · intro hf
      have h1 := Int.lt_floor_add_one q
      have h2 : (⌊q⌋ : ℚ) + 1 ≤ 0 + 1 := by
        have : (⌊q⌋ : ℚ) ≤ 0 := by exact_mod_cast hf
        linarith
      linarith
    · intro h1
      have : ⌊q⌋ < 1 := by
        rw [Int.floor_lt]
        exact_mod_cast h1
      omega
  · rw [if_neg h]
    push_neg at h
    constructor
    · intro _
      linarith
    · intro _
      rw [Int.ceil_le]
      exact_mod_cast le_of_lt h

theorem countdownRun_nil_iff (ls : ℚ) (iv : ℤ) (now bEnd : ℚ)
    (rest : List (ℚ × ℚ)) :
    countdownRun ls iv ((now, bEnd) :: rest) = [] ↔ ls + (iv : ℚ) - now < 1 := by
  constructor
  · intro h
    by_contra hno
    have hge : ¬ pyTrunc (ls + (iv : ℚ) - now) ≤ 0 := by
      rw [pyTrunc_nonpos_iff]; exact hno
    simp only [countdownRun, if_neg hge] at h
    exact List.cons_ne_nil _ _ h
  · intro h
    have hc : pyTrunc (ls + (iv : ℚ) - now) ≤ 0 := (pyTrunc_nonpos_iff _).mpr h
    simp only [countdownRun, if_pos hc]

/-- C10 counterexample: with the cycle started at `t = 0` and a 60-second
interval, the countdown loop already exits (the next cycle begins) at
`now = 59.5`, which is strictly before `cycle-start + interval`: the
truncated remaining time `int(0 + 60 - 59.5) = 0` triggers the break. -/
theorem C10_cex :
    countdownRun 0 60 [(119 / 2, 0)] = [] ∧ (119 : ℚ) / 2 < 0 + 60 := by
  constructor
  · rw [countdownRun_nil_iff]
    norm_num
  · norm_num

/-- C10 (amended): the countdown deadline is measured from the cycle's
*start* instant (`lastSampleTime` is set to `startDt`); the countdown with a
nonempty observation sequence exits immediately, publishing nothing, exactly
when the truncated remaining time is non-positive, i.e. when
`now > lastSampleTime + interval - 1` — up to one second before the nominal
deadline; in particular, whenever the cycle's own duration is at least the
chosen interval, the first check already exits and no countdown snapshot is
published (src/main.py lines 358-362, 385-394). -/
theorem C10_deadline_from_start :
    (∀ (st : TrackerState) (startDt : ℚ) (durMs : ℤ),
      (recordCycleEnd st startDt durMs).lastSampleTime = some startDt) ∧
    (∀ (ls : ℚ) (iv : ℤ) (now bEnd : ℚ) (rest : List (ℚ × ℚ)),
      countdownRun ls iv ((now, bEnd) :: rest) = [] ↔
        ls + (iv : ℚ) - now < 1) ∧
    (∀ (startDt dur : ℚ) (iv : ℤ) (now bEnd : ℚ) (rest : List (ℚ × ℚ)),
      (iv : ℚ) ≤ dur → startDt + dur ≤ now →
      countdownRun startDt iv ((now, bEnd) :: rest) = []) := by
  refine ⟨fun st startDt durMs => rfl, countdownRun_nil_iff, ?_⟩
  intro startDt dur iv now bEnd rest h1 h2
  rw [countdownRun_nil_iff]
  linarith

/-- C10 witness: a cycle that started at `t = 0` and took 70 seconds, with a
60-second interval chosen, publishes no countdown snapshot. -/
theorem C10_witness :
    countdownRun 0 60 [((70 : ℚ), 0)] = [] :=
  C10_deadline_from_start.2.2 0 70 60 70 0 [] (by norm_num) (by norm_num)

theorem TestUrls_eq_filter (extra : Bool)
    (get : String → Except PErr HttpResponse) :
    TestUrls extra get =
      ((baseSites ++ if extra then extraSites else []).filter
        (isFailed get)).map stripScheme := by
  unfold TestUrls
  generalize (baseSites ++ if extra then extraSites else []) = sites
  induction sites with
  | nil => rfl
  | cons u r ih =>
      rw [List.filterMap_cons, List.filter_cons]
      cases hg : get u with
      | error e => simp [isFailed, hg, ih]
      | ok resp =>
          by_cases hs : 400 ≤ resp.status_code
          · simp [isFailed, hg, hs, ih]
          · simp [isFailed, hg, hs, ih]

/-- C9 counterexample: a `101` response is not 2xx/3xx, yet `TestUrls`
reports every site reachable, because the source tests only
`status_code >= 400`; and the scheduler's call (`TestUrls()` with the
`extra` flag left `False`, src/main.py line 353) never widens the probed
set: with every request failing it still reports only the three base sites,
whatever the upcoming interval is. -/
theorem C9_cex :
    TestUrls false (fun _ => .ok ⟨101⟩) = [] ∧
    ¬ (200 ≤ 101 ∧ 101 < 400) ∧
    schedulerFailedSites (fun _ => .error .timeout) =
      ["www.google.com", "chat.openai.com", "www.youtube.com"] ∧
    ¬ ("www.twitter.com" : String) ∈
        schedulerFailedSites (fun _ => .error .timeout) := by
  exact ⟨rfl, by norm_num, rfl, by decide⟩

/-- C9 (amended): `TestUrls` returns, in probing order, the scheme-stripped
names of exactly those probed URLs whose request raised an error or
returned a status of 400 or above (so a 1xx status counts as reachable);
the probed set is the base sites plus the extra sites exactly when the
`extra` flag is set — but the scheduler always calls it with the flag at
its default `False`, so the set it probes is always just the base sites,
never widened (src/main.py lines 83-99, 353). -/
theorem C9_testurls :
    (∀ (extra : Bool) (get : String → Except PErr HttpResponse),
      TestUrls extra get =
        ((baseSites ++ if extra then extraSites else []).filter
          (isFailed get)).map stripScheme) ∧
    (∀ get : String → Except PErr HttpResponse,
      schedulerFailedSites get =
        (baseSites.filter (isFailed get)).map stripScheme) := by
  refine ⟨TestUrls_eq_filter, fun get => ?_⟩
  rw [schedulerFailedSites, TestUrls_eq_filter]
  simp

/-- C4 counterexample: an erroring `ifconfig` call is not degraded to the
OFF-equivalent — `CheckVpnStatus` has no handler, so the error propagates
and aborts the whole probe phase of the cycle. -/
theorem C4_cex :
    CheckVpnStatus (.error .calledProcessError) =
      .error PErr.calledProcessError ∧
    CheckVpnStatus (.error .calledProcessError) ≠ .ok "OFF" ∧
    runProbes (.error .calledProcessError) (.ok ⟨none, none⟩)
        (.ok (.error ())) (.ok none) (fun _ => .ok ⟨200⟩) =
      .error PErr.calledProcessError :=
  ⟨rfl, fun h => Except.noConfusion h, rfl⟩

/-- C4 (amended): `GetWifiSignal` recovers every error to the absent
sentinel and `TestUrls` counts an erroring request as a failed site rather
than raising; `PingTest` and `SpeedTest` map unparsable output to the
`(0.0, 0.0)` sentinel but propagate an error of the subprocess call itself;
and `CheckVpnStatus` propagates every `ifconfig` error — aborting the probe
phase — instead of degrading to OFF (src/main.py lines 39-99, 348-353). -/
theorem C4_probe_errors :
    (∀ e : PErr, CheckVpnStatus (.error e) = .error e) ∧
    (∀ (e : PErr) (ping : Except PErr PingStdout)
       (speed : Except PErr (Except Unit Jv)) (wifi : Except PErr (Option ℤ))
       (get : String → Except PErr HttpResponse),
      runProbes (.error e) ping speed wifi get = .error e) ∧
    (∀ e : PErr, GetWifiSignal (.error e) = none) ∧
    (∀ e : PErr, PingTest (.error e) = .error e) ∧
    PingTest (.ok ⟨none, none⟩) = .ok (0, 0) ∧
    (∀ e : PErr, SpeedTest (.error e) = .error e) ∧
    SpeedTest (.ok (.error ())) = .ok (0, 0) ∧
    (∀ (get : String → Except PErr HttpResponse) (url : String),
      url ∈ baseSites → isFailed get url = true →
        stripScheme url ∈ TestUrls false get) := by
  refine ⟨fun e => rfl, fun e ping speed wifi get => rfl, fun e => rfl,
    fun e => rfl, rfl, fun e => rfl, rfl, ?_⟩
  intro get url hmem hfail
  rw [TestUrls_eq_filter]
  refine List.mem_map_of_mem stripScheme ?_
  rw [List.mem_filter]
  exact ⟨by simpa using hmem, hfail⟩

/-- C4 witness: with every request erroring, the first base site is listed
as failed by the reachability probe the scheduler runs. -/
theorem C4_witness :
    stripScheme "https://www.google.com" ∈
      TestUrls false (fun _ => .error .timeout) :=
  C4_probe_errors.2.2.2.2.2.2.2 (fun _ => .error .timeout)
    "https://www.google.com" (by simp [baseSites]) rfl

theorem decodeSites_map (l : List String) :
    decodeSites (l.map Jv.str) = some l := by
  induction l with
  | nil => rfl
  | cons s r ih => simp [decodeSites, ih]

/-- C8: appending a Measurement's record with the Recorder leaves it as the
last entry of the append-only log, and decoding that record recovers every
field of the original Measurement — the serialization round-trips
(src/main.py lines 102-105, 365-377). -/
theorem C8_log_roundtrip (log : List Jv) (m : Measurement) :
    (WriteToLog (encodeMeasurement m) log).getLast? =
      some (encodeMeasurement m) ∧
    decodeMeasurement (encodeMeasurement m) = some m := by
  constructor
  · simp [WriteToLog]
  · obtain ⟨ts, vpn, ping, loss, dl, ul, wifi, fs⟩ := m
    cases wifi with
    | none =>
        simp [encodeMeasurement, decodeMeasurement, decodeWifi,
          decodeSites_map]
    | some i =>
        simp [encodeMeasurement, decodeMeasurement, decodeWifi,
          decodeSites_map, Rat.den_intCast, Rat.num_intCast]

/-- C7 evaluation at the failing input: after the listener thread handles
the quit key, only the listener thread has ended (with the terminal
restored); the main thread still runs the tracker loop, so the process is
still alive — pressing q does not terminate the process (src/main.py lines
428-430, 444-446). -/
theorem C7_quit_ends_listener_only :
    processAlive (handleKey (procInit 0) 0 "" "" 'q') = true ∧
    (handleKey (procInit 0) 0 "" "" 'q').listenerAlive = false ∧
    (handleKey (procInit 0) 0 "" "" 'q').termiosRestored = true :=
  ⟨rfl, rfl, rfl⟩

theorem head?_concat_some {α : Type} (l : List α) (x a : α)
    (h : l.head? = some a) : (l ++ [x]).head? = some a := by
  cases l with
  | nil => exact Option.noConfusion h
  | cons b r => exact h

theorem tickAfterAssemble_concat (l : List Ev) (x : Ev) :
    tickAfterAssemble (l ++ [x]) =
      (tickAfterAssemble l || (l.any isAssemble && isTick x)) := by
  induction l with
  | nil => simp [tickAfterAssemble]
  | cons e r ih =>
      simp only [List.cons_append, tickAfterAssemble, List.any_append,
        List.any_cons, List.any_nil, List.append_eq]
      rw [ih]
      cases isAssemble e <;> cases isTick x <;> cases r.any isTick <;>
        cases r.any isAssemble <;> cases tickAfterAssemble r <;> rfl

theorem cycleInv_init (t0 b0 : ℚ) : CycleInv t0 b0 (initCycle t0 b0) := by
  refine ⟨le_refl t0, fun _ => rfl, ?_, ?_, rfl, ?_, ?_, ?_, rfl, ?_⟩
  · intro h5; simp [initCycle] at h5
  · intro hA; simp [initCycle] at hA
  · intro h1; simp [initCycle] at h1
  · intro _; exact ⟨rfl, rfl⟩
  · intro hb; simp [initCycle] at hb
  · intro n b hm; simp [initCycle] at hm

theorem cycleInv_step {t0 b0 : ℚ} {s t : CycleState}
    (inv : CycleInv t0 b0 s) (st : CycleStep s t) : CycleInv t0 b0 t := by
  cases st with
  | advance d hd =>
      exact ⟨le_trans inv.now_ge (le_add_of_nonneg_right hd), inv.boost_unmarked,
        inv.join_done, inv.assemble_done, inv.no_late_tick, inv.head_start,
        inv.pc0, inv.spawn_pc, inv.samples_pc, inv.tick_facts⟩
  | aStart h =>
      obtain ⟨htr, hbs⟩ := inv.pc0 h
      constructor
      any_goals dsimp only
      · exact inv.now_ge
      · exact inv.boost_unmarked
      · intro h5; exact absurd h5 (by decide)
      · intro hA; rw [htr] at hA; exact absurd hA (by decide)
      · rw [htr]; rfl
      · intro _; rw [htr]; rfl
      · intro h0; exact absurd h0 (by decide)
      · intro hb; rw [hbs] at hb; exact absurd hb (by decide)
      · rw [inv.samples_pc, h]; decide
      · intro n b hm; rw [htr] at hm; simp at hm
  | aSpawn h =>
      constructor
      any_goals dsimp only
      · exact inv.now_ge
      · exact inv.boost_unmarked
      · intro h5; exact absurd h5 (by decide)
      · exact inv.assemble_done
      · exact inv.no_late_tick
      · intro _; exact inv.head_start (by omega)
      · intro h0; exact absurd h0 (by decide)
      · intro _; exact by decide
      · rw [inv.samples_pc, h]; decide
      · exact inv.tick_facts
  | aProbes h =>
      constructor
      any_goals dsimp only
      · exact inv.now_ge
      · exact inv.boost_unmarked
      · intro h5; exact absurd h5 (by decide)
      · intro hA
        rw [List.any_append] at hA
        simp only [List.any_cons, List.any_nil, isAssemble, Bool.or_false] at hA
        exact inv.assemble_done hA
      · rw [tickAfterAssemble_concat, inv.no_late_tick]
        simp [isTick]
      · intro _
        exact head?_concat_some _ _ _ (inv.head_start (by omega))
      · intro h0; exact absurd h0 (by decide)
      · intro _; exact by decide
      · rw [inv.samples_pc, h]; decide
      · intro n b hm
        rcases List.mem_append.mp hm with h1 | h2
        · exact inv.tick_facts n b h1
        · simp at h2
  | aSetStop h =>
      constructor
      any_goals dsimp only
      · exact inv.now_ge
      · exact inv.boost_unmarked
      · intro h5; exact absurd h5 (by decide)
      · exact inv.assemble_done
      · exact inv.no_late_tick
      · intro _; exact inv.head_start (by omega)
      · intro h0; exact absurd h0 (by decide)
      · intro _; exact by decide
      · rw [inv.samples_pc, h]; decide
      · exact inv.tick_facts
  | aJoin h hb =>
      constructor
      any_goals dsimp only
      · exact inv.now_ge
      · exact inv.boost_unmarked
      · intro _; exact hb
      · exact inv.assemble_done
      · exact inv.no_late_tick
      · intro _; exact inv.head_start (by omega)
      · intro h0; exact absurd h0 (by decide)
      · intro _; exact by decide
      · rw [inv.samples_pc, h]; decide
      · exact inv.tick_facts
  | aAssemble h =>
      have hbd : s.bDone = true := inv.join_done (by omega)
      constructor
      any_goals dsimp only
      · exact inv.now_ge
      · exact inv.boost_unmarked
      · intro _; exact hbd
      · intro _; exact hbd
      · rw [tickAfterAssemble_concat, inv.no_late_tick]
        simp [isTick]
      · intro _
        exact head?_concat_some _ _ _ (inv.head_start (by omega))
      · intro h0; exact absurd h0 (by decide)
      · intro _; exact by decide
      · rw [inv.samples_pc, h]; decide
      · intro n b hm
        rcases List.mem_append.mp hm with h1 | h2
        · exact inv.tick_facts n b h1
        · simp at h2
  | aPersist h =>
      constructor
      any_goals dsimp only
      · exact inv.now_ge
      · exact inv.boost_unmarked
      · intro _; exact inv.join_done (by omega)
      · intro hA
        rw [List.any_append] at hA
        simp only [List.any_cons, List.any_nil, isAssemble, Bool.or_false] at hA
        exact inv.assemble_done hA
      · rw [tickAfterAssemble_concat, inv.no_late_tick]
        simp [isTick]
      · intro _
        exact head?_concat_some _ _ _ (inv.head_start (by omega))
      · intro h0; exact absurd h0 (by decide)
      · intro _; exact by decide
      · rw [inv.samples_pc, h]; decide
      · intro n b hm
        rcases List.mem_append.mp hm with h1 | h2
        · exact inv.tick_facts n b h1
        · simp at h2
  | aCountSnap h =>
      constructor
      any_goals dsimp only
      · exact inv.now_ge
      · exact inv.boost_unmarked
      · exact inv.join_done
      · intro hA
        rw [List.any_append] at hA
        simp only [List.any_cons, List.any_nil, isAssemble, Bool.or_false] at hA
        exact inv.assemble_done hA
      · rw [tickAfterAssemble_concat, inv.no_late_tick]
        simp [isTick]
      · intro h1; exact head?_concat_some _ _ _ (inv.head_start h1)
      · intro h0; exact absurd (h.symm.trans h0) (by decide)
      · exact inv.spawn_pc
      · exact inv.samples_pc
      · intro n b hm
        rcases List.mem_append.mp hm with h1 | h2
        · exact inv.tick_facts n b h1
        · simp at h2
  | bCheckStop hs hd h hst =>
      constructor
      any_goals dsimp only
      · exact inv.now_ge
      · exact inv.boost_unmarked
      · intro _; rfl
      · intro _; rfl
      · exact inv.no_late_tick
      · exact inv.head_start
      · exact inv.pc0
      · exact inv.spawn_pc
      · exact inv.samples_pc
      · exact inv.tick_facts
  | bCheckRun hs hd h hst =>
      exact ⟨inv.now_ge, inv.boost_unmarked, inv.join_done, inv.assemble_done,
        inv.no_late_tick, inv.head_start, inv.pc0, inv.spawn_pc,
        inv.samples_pc, inv.tick_facts⟩
  | bTick hs hd h =>
      have hnA : s.trace.any isAssemble = false := by
        cases hA : s.trace.any isAssemble with
        | false => rfl
        | true => exact absurd (inv.assemble_done hA) (by simp [hd])
      have hsam : s.samples = 0 := by
        rw [inv.samples_pc, if_neg]
        intro h6
        exact absurd (inv.join_done (by omega)) (by simp [hd])
      constructor
      any_goals dsimp only
      · exact inv.now_ge
      · exact inv.boost_unmarked
      · exact inv.join_done
      · intro hA
        rw [List.any_append] at hA
        simp only [List.any_cons, List.any_nil, isAssemble, Bool.or_false] at hA
        rw [hnA] at hA
        exact Bool.noConfusion hA
      · rw [tickAfterAssemble_concat, inv.no_late_tick, hnA]
        simp
      · intro h1; exact head?_concat_some _ _ _ (inv.head_start h1)
      · intro h0
        exact absurd hs (by simp [(inv.pc0 h0).2])
      · exact inv.spawn_pc
      · exact inv.samples_pc
      · intro n b hm
        rcases List.mem_append.mp hm with h1 | h2
        · exact inv.tick_facts n b h1
        · simp at h2
          obtain ⟨hn, hbq⟩ := h2
          refine ⟨by rw [hn, hsam], fun hb0 hmk => ?_⟩
          rw [hbq, inv.boost_unmarked hmk]
          exact decide_eq_false (not_lt.mpr (le_trans hb0 inv.now_ge))
  | markKey =>
      constructor
      any_goals dsimp only
      · exact inv.now_ge
      · intro hmk; exact absurd hmk (by decide)
      · exact inv.join_done
      · exact inv.assemble_done
      · exact inv.no_late_tick
      · exact inv.head_start
      · exact inv.pc0
      · exact inv.spawn_pc
      · exact inv.samples_pc
      · intro n b hm
        exact ⟨(inv.tick_facts n b hm).1, fun _ hmk => absurd hmk (by decide)⟩

theorem cycleReach_inv {t0 b0 : ℚ} {s : CycleState}
    (h : CycleReach (initCycle t0 b0) s) : CycleInv t0 b0 s := by
  induction h with
  | refl => exact cycleInv_init t0 b0
  | step hr hstep ih => exact cycleInv_step ih hstep

theorem reach_fullRunState : CycleReach (initCycle 0 0) fullRunState := by
  have h0 : CycleReach (initCycle 0 0) (initCycle 0 0) := CycleReach.refl
  have h1 := CycleReach.step h0 (CycleStep.aStart _ rfl)
  have h2 := CycleReach.step h1 (CycleStep.aSpawn _ rfl)
  have h3 := CycleReach.step h2 (CycleStep.aProbes _ rfl)
  have h4 := CycleReach.step h3 (CycleStep.bCheckRun _ rfl rfl rfl rfl)
  have h5 := CycleReach.step h4 (CycleStep.bTick _ rfl rfl rfl)
  have h6 := CycleReach.step h5 (CycleStep.aSetStop _ rfl)
  have h7 := CycleReach.step h6 (CycleStep.bCheckStop _ rfl rfl rfl rfl)
  have h8 := CycleReach.step h7 (CycleStep.aJoin _ rfl rfl)
  have h9 := CycleReach.step h8 (CycleStep.aAssemble _ rfl)
  have h10 := CycleReach.step h9 (CycleStep.aPersist _ rfl)
  have h11 := CycleReach.step h10 (CycleStep.aCountSnap _ rfl)
  exact h11

/-- C5 counterexample: in a reachable complete run of the first cycle an
indicator tick is published after probing completed and before the first
post-cycle snapshot — the indicator loop had already passed its stop check
when the probes finished, so one more render slips in before the join. -/
theorem C5_cex :
    CycleReach (initCycle 0 0) fullRunState ∧
    tickAfterProbesBeforeSnap fullRunState.trace = true :=
  ⟨reach_fullRunState, rfl⟩

/-- C5 (amended): the indicator sub-loop is signaled to stop and fully
joined before the scheduler assembles and persists the cycle's Measurement,
so in every reachable state no indicator tick is published after the
Measurement assembly (in particular none between the assembly and the first
post-cycle snapshot), and whenever the assembly has happened the indicator
thread has already terminated; a tick may still be published in the window
between probe completion and the join (src/main.py lines 307-363). -/
theorem C5_no_tick_after_join (t0 b0 : ℚ) (s : CycleState)
    (h : CycleReach (initCycle t0 b0) s) :
    tickAfterAssemble s.trace = false ∧
    (s.trace.any isAssemble = true → s.bDone = true) :=
  ⟨(cycleReach_inv h).no_late_tick, (cycleReach_inv h).assemble_done⟩

/-- C5 witness: the theorem applied to the concrete complete run. -/
theorem C5_witness :
    tickAfterAssemble fullRunState.trace = false ∧
    (fullRunState.trace.any isAssemble = true → fullRunState.bDone = true) :=
  C5_no_tick_after_join 0 0 fullRunState reach_fullRunState

/-- C6 counterexample: a reachable complete run of the first cycle in which
dashboard renderings are published but none of them precedes the cycle
start — the initial pre-cycle snapshot the claim describes does not exist;
the first published snapshot is an indicator tick from within the first
cycle. -/
theorem C6_cex :
    CycleReach (initCycle 0 0) fullRunState ∧
    snapBeforeCycleStart fullRunState.trace = false ∧
    fullRunState.trace.any isSnap = true :=
  ⟨reach_fullRunState, rfl, rfl⟩

/-- C6 (amended): the scheduler publishes no snapshot before the first
cycle begins; a snapshot observed right after process start — an indicator
tick of the first cycle — shows samples-taken = 0, and, provided no mark
key has yet been handled (the initial boost expiry being no later than the
start instant), boosted = false.  A mark arriving during the first cycle
overwrites the shared `boostEndTime` (src/main.py line 434), which the
indicator re-reads at line 316, so the no-mark proviso is necessary
(src/main.py lines 29-36, 299-353, 434). -/
theorem C6_first_snapshot_timing (t0 b0 : ℚ) (s : CycleState)
    (h : CycleReach (initCycle t0 b0) s) (hb : b0 ≤ t0) :
    snapBeforeCycleStart s.trace = false ∧
    ∀ n b, Ev.tick n b ∈ s.trace →
      n = 0 ∧ (s.marked = false → b = false) := by
  have inv := cycleReach_inv h
  constructor
  · by_cases h0 : s.aPC = 0
    · rw [(inv.pc0 h0).1]
      rfl
    · have hh := inv.head_start (by omega)
      cases htr : s.trace with
      | nil => rfl
      | cons e rest =>
          rw [htr] at hh
          have he : e = Ev.cycleStart := by simpa using hh
          subst he
          rfl
  · intro n b hm
    have hf := inv.tick_facts n b hm
    exact ⟨hf.1, fun hmk => hf.2 hb hmk⟩

/-- C6 witness: the theorem applied to the concrete complete run. -/
theorem C6_witness : snapBeforeCycleStart fullRunState.trace = false :=
  (C6_first_snapshot_timing 0 0 fullRunState reach_fullRunState
    (le_refl 0)).1

